import Mathlib

/-!
Verification of the `lock` package (OFD file locks): a shallow embedding of
`lock.go`.  Syscall outcomes (`filepath.Abs`, `os.Stat`, `os.OpenFile`,
`unix.FcntlFlock`, `(*os.File).Close`) are supplied by an environment
oracle `Env`; each operation is a pure function on a `Locker` state that
returns the updated state, the Go error (if any), and a trace of the
observable OS calls it issued.  The unbounded retry loop in `Lock` is
given fuel; `none` means the loop has not terminated within that fuel.
-/

namespace LockPkg

/-- Errno values on linux, as used by golang.org/x/sys/unix. -/
def EAGAIN : Nat := 11

/-- On linux EWOULDBLOCK and EAGAIN are the same errno value. -/
def EWOULDBLOCK : Nat := 11

/-- Errno for a missing path (syscall.ENOENT). -/
def ENOENT : Nat := 2

/-- Open File Description lock commands, values exactly as declared in lock.go. -/
def F_OFD_GETLK : Nat := 37

/-- Non-blocking OFD set-lock command (lock.go). -/
def F_OFD_SETLK : Nat := 37

/-- Blocking OFD set-lock command (lock.go, unused by the operations). -/
def F_OFD_SETLKW : Nat := 38

/-- unix.F_WRLCK on linux: exclusive write lock type. -/
def F_WRLCK : Int := 1

/-- io.SeekStart: seek relative to the origin of the file. -/
def seekStart : Int := 0

/-- os.O_RDWR flag value. -/
def O_RDWR : Nat := 2

/-- Go errors as values: a raw errno, a constructed error (errors.New /
fmt.Errorf with a fixed message), or an errors.Wrap of a cause. -/
inductive GoError where
  | errno (code : Nat)
  | goError (msg : String)
  | wrapped (msg : String) (cause : GoError)
  deriving DecidableEq, Repr

/-- The package sentinel `ErrLockLocked = fmt.Errorf("lock: lock is locked")`. -/
def ErrLockLocked : GoError := .goError "lock: lock is locked"

/-- os.ErrInvalid, returned by (*os.File).Close on a nil receiver. -/
def ErrInvalid : GoError := .goError "invalid argument"

/-- os.IsNotExist: true when the (possibly wrapped) error reports that a
file or directory does not exist (ENOENT or the fs.ErrNotExist sentinel). -/
def GoError.isNotExist : GoError → Bool
  | .errno c => c = ENOENT
  | .goError m => m = "file does not exist"
  | .wrapped _ e => e.isNotExist

/-- The slice of os.FileInfo that lock.go consults. -/
structure FileInfo where
  isDir : Bool
  deriving DecidableEq, Repr

/-- unix.Flock_t, the lock request record passed to FcntlFlock. -/
structure Flock_t where
  type : Int
  whence : Int
  start : Int
  len : Int
  pid : Int
  deriving DecidableEq, Repr

/-- The request lock.go builds: Type F_WRLCK, Whence int16(io.SeekStart),
all other fields zero — an exclusive write lock covering the whole file. -/
def wrlckWholeFile : Flock_t :=
  { type := F_WRLCK, whence := seekStart, start := 0, len := 0, pid := 0 }

/-- Observable OS calls issued by the operations. -/
inductive Event where
  | statCall (path : String)
  | openCall (path : String) (flags : Nat) (perm : Nat)
  | flockCall (fd : Nat) (cmd : Nat) (lk : Flock_t)
  | sleepCall (d : Int)
  | closeCall (fd : Nat)
  deriving DecidableEq, Repr

/-- Whether an event is a lock-table (fcntl flock) call. -/
def Event.isFlock : Event → Bool
  | .flockCall _ _ _ => true
  | _ => false

/-- Whether an event opens a file. -/
def Event.isOpen : Event → Bool
  | .openCall _ _ _ => true
  | _ => false

/-- Whether an event closes a file descriptor. -/
def Event.isClose : Event → Bool
  | .closeCall _ => true
  | _ => false

/-- Outcomes the operating system gives to each syscall of one acquisition
attempt on the locker's path: the result of filepath.Abs, of os.Stat on the
absolute path, of os.OpenFile, of the i-th FcntlFlock request (`none` is
success, `some e` is errno e), and of Close. -/
structure Env where
  absRes : Except GoError String
  statRes : Except GoError FileInfo
  openRes : Except GoError Nat
  flockRes : Nat → Option Nat
  closeRes : Option GoError

/-- The Locker struct of lock.go: the file field is the fd of the open
*os.File when non-nil, `none` when the pointer is nil. retryInterval is a
time.Duration in nanoseconds. -/
structure Locker where
  path : String
  file : Option Nat
  retryInterval : Int
  deriving DecidableEq, Repr

/-- defaultRetryInterval = 250 * time.Millisecond, in nanoseconds. -/
def defaultRetryInterval : Int := 250000000

/-- New returns a new Locker (lock.go New): zero retryInterval is replaced
by the default; no environment is consulted (no I/O, no validation). -/
def New (path : String) (retryInterval : Int) : Locker :=
  { path := path
    file := none
    retryInterval := if retryInterval = 0 then defaultRetryInterval else retryInterval }

/-- Result of an operation: the locker after the call, the returned Go
error (`none` for nil), and the trace of OS calls issued. -/
structure LockResult where
  locker : Locker
  err : Option GoError
  trace : List Event
  deriving DecidableEq, Repr

/-- The retry loop of Locker.Lock.  `i` counts FcntlFlock requests already
issued, `tr` is the trace accumulated so far, `fuel` bounds the number of
further iterations (`none` = still looping when fuel runs out). -/
def lockLoop (env : Env) (l : Locker) (abs : String) (fd : Nat) :
    Nat → Nat → List Event → Option LockResult
  | 0, _, _ => none
  | fuel + 1, i, tr =>
    match env.flockRes i with
    | none =>
        some { locker := { l with path := abs, file := some fd }
               err := none
               trace := tr ++ [.flockCall fd F_OFD_SETLK wrlckWholeFile] }
    | some e =>
        if e = EWOULDBLOCK then
          lockLoop env l abs fd fuel (i + 1)
            (tr ++ [.flockCall fd F_OFD_SETLK wrlckWholeFile, .sleepCall l.retryInterval])
        else
          some { locker := l
                 err := some (.wrapped "lock failed" (.errno e))
                 trace := tr ++ [.flockCall fd F_OFD_SETLK wrlckWholeFile, .closeCall fd] }

/-- Locker.Lock of lock.go: resolve the path, stat it, reject directories,
open read-write, then loop on the non-blocking OFD write-lock request. -/
def Locker.Lock (l : Locker) (env : Env) (fuel : Nat) : Option LockResult :=
  match env.absRes with
  | .error e =>
      some { locker := l
             err := some (.wrapped "absolute represenation of path failed" e)
             trace := [] }
  | .ok abs =>
    match env.statRes with
    | .error e =>
        if e.isNotExist then
          some { locker := l
                 err := some (.wrapped "path doesn't exist" e)
                 trace := [.statCall abs] }
        else
          some { locker := l
                 err := some (.wrapped "stat failed" e)
                 trace := [.statCall abs] }
    | .ok fi =>
      if fi.isDir then
        some { locker := l
               err := some (.goError "directory not allowed")
               trace := [.statCall abs] }
      else
        match env.openRes with
        | .error e =>
            some { locker := l
                   err := some (.wrapped "open failed" e)
                   trace := [.statCall abs, .openCall abs O_RDWR 0o660] }
        | .ok fd =>
            lockLoop env l abs fd fuel 0 [.statCall abs, .openCall abs O_RDWR 0o660]

/-- Locker.TryLock of lock.go: same checks as Lock, a single non-blocking
lock request; EAGAIN/EWOULDBLOCK become the ErrLockLocked sentinel, any
other request error is returned as-is; the opened file is not closed on
failure. -/
def Locker.TryLock (l : Locker) (env : Env) : LockResult :=
  match env.absRes with
  | .error e =>
      { locker := l, err := some (.wrapped "abs failed" e), trace := [] }
  | .ok abs =>
    match env.statRes with
    | .error e =>
        if e.isNotExist then
          { locker := l
            err := some (.wrapped "path doesn't exist" e)
            trace := [.statCall abs] }
        else
          { locker := l
            err := some (.wrapped "stat failed" e)
            trace := [.statCall abs] }
    | .ok fi =>
      if fi.isDir then
        { locker := l
          err := some (.goError "directories are not allowed")
          trace := [.statCall abs] }
      else
        match env.openRes with
        | .error e =>
            { locker := l
              err := some (.wrapped "open failed" e)
              trace := [.statCall abs, .openCall abs O_RDWR 0o660] }
        | .ok fd =>
          match env.flockRes 0 with
          | none =>
              { locker := { l with path := abs, file := some fd }
                err := none
                trace := [.statCall abs, .openCall abs O_RDWR 0o660,
                          .flockCall fd F_OFD_SETLK wrlckWholeFile] }
          | some e =>
              if e = EAGAIN ∨ e = EWOULDBLOCK then
                { locker := l, err := some ErrLockLocked
                  trace := [.statCall abs, .openCall abs O_RDWR 0o660,
                            .flockCall fd F_OFD_SETLK wrlckWholeFile] }
              else
                { locker := l, err := some (.errno e)
                  trace := [.statCall abs, .openCall abs O_RDWR 0o660,
                            .flockCall fd F_OFD_SETLK wrlckWholeFile] }

/-- Locker.Unlock of lock.go: close the file (a nil *os.File closes to
os.ErrInvalid); a close error is wrapped; no field of the locker is ever
modified. -/
def Locker.Unlock (l : Locker) (env : Env) : LockResult :=
  match l.file with
  | none =>
      { locker := l, err := some (.wrapped "close failed" ErrInvalid), trace := [] }
  | some fd =>
    match env.closeRes with
    | some e =>
        { locker := l, err := some (.wrapped "close failed" e), trace := [.closeCall fd] }
    | none =>
        { locker := l, err := none, trace := [.closeCall fd] }

/-! Concrete environments used as witnesses. -/

/-- Environment where every syscall of the attempt succeeds: the path
resolves, names a regular file, opens as fd 3, and the first lock request
is granted. -/
def env1 : Env :=
  { absRes := .ok "/tmp/a.lock"
    statRes := .ok { isDir := false }
    openRes := .ok 3
    flockRes := fun _ => none
    closeRes := none }

/-- Environment where every lock request reports contention (EWOULDBLOCK). -/
def envBusy : Env :=
  { absRes := .ok "/tmp/a.lock"
    statRes := .ok { isDir := false }
    openRes := .ok 3
    flockRes := fun _ => some EWOULDBLOCK
    closeRes := none }

/-- Environment where the single lock request fails with EACCES (13), a
non-contention error. -/
def envEacces : Env :=
  { absRes := .ok "/tmp/a.lock"
    statRes := .ok { isDir := false }
    openRes := .ok 3
    flockRes := fun _ => some 13
    closeRes := none }

/-- Environment where the stat reports that the path does not exist. -/
def envMissing : Env :=
  { absRes := .ok "/tmp/missing.lock"
    statRes := .error (.errno ENOENT)
    openRes := .ok 3
    flockRes := fun _ => none
    closeRes := none }

/-- Environment where the path names a directory. -/
def envDir : Env :=
  { absRes := .ok "/tmp"
    statRes := .ok { isDir := true }
    openRes := .ok 3
    flockRes := fun _ => none
    closeRes := none }

/-- The locker produced by a successful acquisition of /tmp/a.lock as fd 3
starting from New "/tmp/a.lock" 0. -/
def lockedLocker : Locker :=
  { path := "/tmp/a.lock", file := some 3, retryInterval := defaultRetryInterval }

/-! Theorems. -/

/-- Helper: whatever the environment, when the retry loop of Lock returns,
either it succeeded and committed the absolute path and fd into the locker,
or some request failed with a non-EWOULDBLOCK errno, the error is the
wrapped lock failure, and the locker is unchanged. -/
theorem lockLoop_cases (env : Env) (l : Locker) (abs : String) (fd : Nat) :
    ∀ fuel i tr r, lockLoop env l abs fd fuel i tr = some r →
      (r.err = none ∧ r.locker = { l with path := abs, file := some fd }) ∨
      ∃ e, e ≠ EWOULDBLOCK ∧ r.err = some (GoError.wrapped "lock failed" (.errno e)) ∧
        r.locker = l := by
  intro fuel
  induction fuel with
  | zero => intro i tr r h; simp [lockLoop] at h
  | succ n ih =>
    intro i tr r h
    cases hf : env.flockRes i with
    | none =>
      simp only [lockLoop, hf] at h
      injection h with h
      subst h
      exact Or.inl ⟨rfl, rfl⟩
    | some e =>
      simp only [lockLoop, hf] at h
      by_cases he : e = EWOULDBLOCK
      · rw [if_pos he] at h
        exact ih (i + 1) _ r h
      · rw [if_neg he] at h
        injection h with h
        subst h
        exact Or.inr ⟨e, he, rfl, rfl⟩

/-- Helper: every lock-table event the retry loop adds to the trace is the
non-blocking OFD request for an exclusive whole-file write lock on fd. -/
theorem lockLoop_flock_shape (env : Env) (l : Locker) (abs : String) (fd : Nat) :
    ∀ fuel i tr r, lockLoop env l abs fd fuel i tr = some r →
      ∀ ev ∈ r.trace, ev.isFlock = true →
        ev ∈ tr ∨ ev = Event.flockCall fd F_OFD_SETLK wrlckWholeFile := by
  intro fuel
  induction fuel with
  | zero => intro i tr r h; simp [lockLoop] at h
  | succ n ih =>
    intro i tr r h ev hev hflock
    cases hf : env.flockRes i with
    | none =>
      simp only [lockLoop, hf] at h
      injection h with h
      subst h
      simp only [List.mem_append, List.mem_singleton] at hev
      exact hev
    | some e =>
      simp only [lockLoop, hf] at h
      by_cases he : e = EWOULDBLOCK
      · rw [if_pos he] at h
        rcases ih (i + 1) _ r h ev hev hflock with h1 | h1
        · simp only [List.mem_append, List.mem_cons, List.mem_singleton,
            List.not_mem_nil, or_false] at h1
          rcases h1 with h1 | h1 | h1
          · exact Or.inl h1
          · exact Or.inr h1
          · subst h1; simp [Event.isFlock] at hflock
        · exact Or.inr h1
      · rw [if_neg he] at h
        injection h with h
        subst h
        simp only [List.mem_append, List.mem_cons, List.mem_singleton,
          List.not_mem_nil, or_false] at hev
        rcases hev with h1 | h1 | h1
        · exact Or.inl h1
        · exact Or.inr h1
        · subst h1; simp [Event.isFlock] at hflock

/-- Helper: under perpetual contention every lock request reports
EWOULDBLOCK and the retry loop never returns, whatever the fuel. -/
theorem lockLoop_busy (env : Env) (l : Locker) (abs : String) (fd : Nat)
    (hb : ∀ j, env.flockRes j = some EWOULDBLOCK) :
    ∀ fuel i tr, lockLoop env l abs fd fuel i tr = none := by
  intro fuel
  induction fuel with
  | zero => intro i tr; rfl
  | succ n ih =>
    intro i tr
    simp only [lockLoop, hb i, if_pos rfl]
    exact ih (i + 1) _

/-- Helper: when the prechecks pass, Lock is exactly its retry loop run on
the opened fd with the stat and open events already traced. -/
theorem Lock_reaches_loop (env : Env) (l : Locker) (abs : String) (fi : FileInfo) (fd : Nat)
    (habs : env.absRes = .ok abs) (hstat : env.statRes = .ok fi)
    (hdir : fi.isDir = false) (hopen : env.openRes = .ok fd) :
    ∀ fuel, l.Lock env fuel =
      lockLoop env l abs fd fuel 0 [.statCall abs, .openCall abs O_RDWR 0o660] := by
  intro fuel
  simp [Locker.Lock, habs, hstat, hdir, hopen]

/-- C8: New p d performs no I/O (its type consumes no Env and it issues no
events) and returns a Locker with path p, no file handle, and retry
interval d when d is non-zero, 250ms (250000000 ns) when d is zero. -/
theorem new_spec (p : String) (d : Int) :
    New p d = { path := p, file := none
                retryInterval := if d = 0 then defaultRetryInterval else d } ∧
    defaultRetryInterval = 250000000 := by
  constructor
  · rfl
  · rfl

/-- C10: Unlock on a Locker whose file field is nil does not panic: the
nil-receiver Close returns the invalid-argument error, which Unlock wraps
as a close failure; the locker is unchanged and no OS call is issued. -/
theorem unlock_nil_handle (l : Locker) (env : Env) (h : l.file = none) :
    l.Unlock env =
      { locker := l, err := some (.wrapped "close failed" ErrInvalid), trace := [] } := by
  simp [Locker.Unlock, h]

/-- Witness for unlock_nil_handle at the freshly constructed locker. -/
theorem unlock_nil_handle_wit :
    (New "x" 0).Unlock env1 =
      { locker := New "x" 0
        err := some (.wrapped "close failed" ErrInvalid)
        trace := [] } :=
  unlock_nil_handle (New "x" 0) env1 rfl

/-- Helper: Unlock never modifies the locker, whatever the close outcome. -/
theorem Unlock_locker_eq (l : Locker) (env : Env) : (l.Unlock env).locker = l := by
  unfold Locker.Unlock
  cases l.file with
  | none => rfl
  | some fd =>
    cases env.closeRes with
    | none => rfl
    | some e => rfl

/-- C6: Unlock releases solely by closing the descriptor: every event in
its trace is a close (no flock or other syscall), a held handle produces
exactly one close, a failing close is returned wrapped while the locker's
state (all fields) is left unmodified, and a successful close returns nil. -/
theorem unlock_spec (l : Locker) (env : Env) :
    (l.Unlock env).locker = l ∧
    (∀ ev ∈ (l.Unlock env).trace, ev.isClose = true) ∧
    (∀ fd, l.file = some fd → (l.Unlock env).trace = [.closeCall fd]) ∧
    (∀ fd e, l.file = some fd → env.closeRes = some e →
        (l.Unlock env).err = some (.wrapped "close failed" e)) ∧
    (∀ fd, l.file = some fd → env.closeRes = none → (l.Unlock env).err = none) := by
  unfold Locker.Unlock
  cases hf : l.file with
  | none =>
    refine ⟨rfl, by simp, ?_, ?_, ?_⟩ <;> intro fd <;> simp
  | some fd =>
    cases hc : env.closeRes with
    | none =>
      refine ⟨rfl, ?_, ?_, ?_, ?_⟩
      · simp [Event.isClose]
      · intro fd' h; injection h with h; subst h; rfl
      · intro fd' e h hc'; cases hc'
      · intro fd' h hc'; rfl
    | some e =>
      refine ⟨rfl, ?_, ?_, ?_, ?_⟩
      · simp [Event.isClose]
      · intro fd' h; injection h with h; subst h; rfl
      · intro fd' e' h hc'
        injection h with h; injection hc' with hc'; subst h; subst hc'; rfl
      · intro fd' h hc'; cases hc'

/-- Witness for unlock_spec: a held fd 3 with a succeeding close gives an
unchanged locker, the single close event, and a nil error. -/
theorem unlock_spec_wit :
    (lockedLocker.Unlock env1).locker = lockedLocker ∧
    (lockedLocker.Unlock env1).trace = [.closeCall 3] ∧
    (lockedLocker.Unlock env1).err = none := by
  refine ⟨(unlock_spec lockedLocker env1).1,
          (unlock_spec lockedLocker env1).2.2.1 3 rfl,
          (unlock_spec lockedLocker env1).2.2.2.2 3 rfl rfl⟩

/-- C1: once Lock reaches the lock-request loop (prechecks passed, file
opened as fd), the call equals the loop; every request the loop issues is
the non-blocking OFD command F_OFD_SETLK with an exclusive write lock
(F_WRLCK) covering the entire file from offset 0 (whence seekStart); a
request failing with EWOULDBLOCK makes the loop sleep retryInterval and
retry; a request failing with any other errno makes Lock close the opened
file and return a non-retryable error wrapping the cause; a successful
request stops the loop, commits the absolute path and fd into the Locker,
and returns nil. -/
theorem lock_loop_spec (env : Env) (l : Locker) (abs : String) (fi : FileInfo) (fd : Nat)
    (habs : env.absRes = .ok abs) (hstat : env.statRes = .ok fi)
    (hdir : fi.isDir = false) (hopen : env.openRes = .ok fd) :
    (∀ fuel, l.Lock env fuel =
        lockLoop env l abs fd fuel 0 [.statCall abs, .openCall abs O_RDWR 0o660]) ∧
    (∀ fuel i tr r, lockLoop env l abs fd fuel i tr = some r →
        ∀ ev ∈ r.trace, ev.isFlock = true →
          ev ∈ tr ∨ ev = Event.flockCall fd F_OFD_SETLK wrlckWholeFile) ∧
    (∀ fuel i tr, env.flockRes i = some EWOULDBLOCK →
        lockLoop env l abs fd (fuel + 1) i tr =
          lockLoop env l abs fd fuel (i + 1)
            (tr ++ [.flockCall fd F_OFD_SETLK wrlckWholeFile, .sleepCall l.retryInterval])) ∧
    (∀ fuel i tr e, env.flockRes i = some e → e ≠ EWOULDBLOCK →
        lockLoop env l abs fd (fuel + 1) i tr =
          some { locker := l
                 err := some (.wrapped "lock failed" (.errno e))
                 trace := tr ++ [.flockCall fd F_OFD_SETLK wrlckWholeFile,
                                 .closeCall fd] }) ∧
    (∀ fuel i tr, env.flockRes i = none →
        lockLoop env l abs fd (fuel + 1) i tr =
          some { locker := { l with path := abs, file := some fd }
                 err := none
                 trace := tr ++ [.flockCall fd F_OFD_SETLK wrlckWholeFile] }) := by
  refine ⟨Lock_reaches_loop env l abs fi fd habs hstat hdir hopen,
          lockLoop_flock_shape env l abs fd, ?_, ?_, ?_⟩
  · intro fuel i tr hf
    simp only [lockLoop, hf, eq_self_iff_true, if_true]
  · intro fuel i tr e hf he
    simp only [lockLoop, hf]
    rw [if_neg he]
  · intro fuel i tr hf
    simp only [lockLoop, hf]

/-- Witness for lock_loop_spec: in an all-success environment the loop
grants the lock on the first request and commits fd 3 and the absolute
path. -/
theorem lock_loop_spec_wit :
    lockLoop env1 (New "/tmp/a.lock" 0) "/tmp/a.lock" 3 1 0 [] =
      some { locker := lockedLocker
             err := none
             trace := [Event.flockCall 3 F_OFD_SETLK wrlckWholeFile] } := by
  simpa [New, lockedLocker] using
    (lock_loop_spec env1 (New "/tmp/a.lock" 0) "/tmp/a.lock" { isDir := false } 3
      rfl rfl rfl rfl).2.2.2.2 0 0 [] rfl

/-- C7: Lock has no timeout: under perpetual contention (every request
reports EWOULDBLOCK) the call never returns, whatever the fuel; and
whenever Lock does return past the prechecks, the result is either success
or a wrapped non-EWOULDBLOCK lock failure — the would-block condition is
never surfaced to the caller. -/
theorem lock_no_timeout (env : Env) (l : Locker) (abs : String) (fi : FileInfo) (fd : Nat)
    (habs : env.absRes = .ok abs) (hstat : env.statRes = .ok fi)
    (hdir : fi.isDir = false) (hopen : env.openRes = .ok fd) :
    ((∀ i, env.flockRes i = some EWOULDBLOCK) → ∀ fuel, l.Lock env fuel = none) ∧
    (∀ fuel r, l.Lock env fuel = some r →
        r.err = none ∨
        ∃ e, e ≠ EWOULDBLOCK ∧ r.err = some (.wrapped "lock failed" (.errno e))) := by
  constructor
  · intro hb fuel
    rw [Lock_reaches_loop env l abs fi fd habs hstat hdir hopen fuel]
    exact lockLoop_busy env l abs fd hb fuel 0 _
  · intro fuel r h
    rw [Lock_reaches_loop env l abs fi fd habs hstat hdir hopen fuel] at h
    rcases lockLoop_cases env l abs fd fuel 0 _ r h with ⟨h1, _⟩ | ⟨e, he, h1, _⟩
    · exact Or.inl h1
    · exact Or.inr ⟨e, he, h1⟩

/-- Witness for lock_no_timeout: with every request contended, Lock has
not returned after 5 and after 100 loop iterations. -/
theorem lock_no_timeout_wit :
    (New "/tmp/a.lock" 0).Lock envBusy 5 = none ∧
    (New "/tmp/a.lock" 0).Lock envBusy 100 = none := by
  have h := (lock_no_timeout envBusy (New "/tmp/a.lock" 0) "/tmp/a.lock"
      { isDir := false } 3 rfl rfl rfl rfl).1 (fun i => rfl)
  exact ⟨h 5, h 100⟩

/-- C2: TryLock performs the same path-resolution, existence,
non-directory, and open checks as Lock (each precheck failure makes both
return the corresponding error with the locker unchanged); past the
prechecks TryLock issues exactly one lock request with no retry; a request
failing with EAGAIN or EWOULDBLOCK yields the distinct sentinel
ErrLockLocked; any other request error is returned as-is, unwrapped and
never equal to the sentinel; success commits the absolute path and open fd
exactly as a succeeding Lock does. -/
theorem tryLock_spec (env : Env) (l : Locker) :
    (∀ e, env.absRes = .error e →
        l.TryLock env =
          { locker := l, err := some (.wrapped "abs failed" e), trace := [] } ∧
        ∀ fuel, l.Lock env fuel =
          some { locker := l
                 err := some (.wrapped "absolute represenation of path failed" e)
                 trace := [] }) ∧
    (∀ abs e, env.absRes = .ok abs → env.statRes = .error e → e.isNotExist = true →
        l.TryLock env =
          { locker := l, err := some (.wrapped "path doesn't exist" e)
            trace := [.statCall abs] } ∧
        ∀ fuel, l.Lock env fuel =
          some { locker := l, err := some (.wrapped "path doesn't exist" e)
                 trace := [.statCall abs] }) ∧
    (∀ abs e, env.absRes = .ok abs → env.statRes = .error e → e.isNotExist = false →
        l.TryLock env =
          { locker := l, err := some (.wrapped "stat failed" e)
            trace := [.statCall abs] } ∧
        ∀ fuel, l.Lock env fuel =
          some { locker := l, err := some (.wrapped "stat failed" e)
                 trace := [.statCall abs] }) ∧
    (∀ abs fi, env.absRes = .ok abs → env.statRes = .ok fi → fi.isDir = true →
        l.TryLock env =
          { locker := l, err := some (.goError "directories are not allowed")
            trace := [.statCall abs] } ∧
        ∀ fuel, l.Lock env fuel =
          some { locker := l, err := some (.goError "directory not allowed")
                 trace := [.statCall abs] }) ∧
    (∀ abs fi e, env.absRes = .ok abs → env.statRes = .ok fi → fi.isDir = false →
        env.openRes = .error e →
        l.TryLock env =
          { locker := l, err := some (.wrapped "open failed" e)
            trace := [.statCall abs, .openCall abs O_RDWR 0o660] } ∧
        ∀ fuel, l.Lock env fuel =
          some { locker := l, err := some (.wrapped "open failed" e)
                 trace := [.statCall abs, .openCall abs O_RDWR 0o660] }) ∧
    (∀ abs fi fd, env.absRes = .ok abs → env.statRes = .ok fi → fi.isDir = false →
        env.openRes = .ok fd →
        List.countP Event.isFlock (l.TryLock env).trace = 1 ∧
        (env.flockRes 0 = none →
            l.TryLock env =
              { locker := { l with path := abs, file := some fd }
                err := none
                trace := [.statCall abs, .openCall abs O_RDWR 0o660,
                          .flockCall fd F_OFD_SETLK wrlckWholeFile] } ∧
            ∀ r, l.Lock env 1 = some r →
              r.locker = { l with path := abs, file := some fd }) ∧
        (∀ e, env.flockRes 0 = some e → (e = EAGAIN ∨ e = EWOULDBLOCK) →
            (l.TryLock env).err = some ErrLockLocked ∧ (l.TryLock env).locker = l) ∧
        (∀ e, env.flockRes 0 = some e → ¬(e = EAGAIN ∨ e = EWOULDBLOCK) →
            (l.TryLock env).err = some (.errno e) ∧ (l.TryLock env).locker = l ∧
            GoError.errno e ≠ ErrLockLocked)) := by
  refine ⟨?_, ?_, ?_, ?_, ?_, ?_⟩
  · intro e habs
    constructor
    · simp [Locker.TryLock, habs]
    · intro fuel; simp [Locker.Lock, habs]
  · intro abs e habs hstat hne
    constructor
    · simp [Locker.TryLock, habs, hstat, hne]
    · intro fuel; simp [Locker.Lock, habs, hstat, hne]
  · intro abs e habs hstat hne
    constructor
    · simp [Locker.TryLock, habs, hstat, hne]
    · intro fuel; simp [Locker.Lock, habs, hstat, hne]
  · intro abs fi habs hstat hdir
    constructor
    · simp [Locker.TryLock, habs, hstat, hdir]
    · intro fuel; simp [Locker.Lock, habs, hstat, hdir]
  · intro abs fi e habs hstat hdir hopen
    constructor
    · simp [Locker.TryLock, habs, hstat, hdir, hopen]
    · intro fuel; simp [Locker.Lock, habs, hstat, hdir, hopen]
  · intro abs fi fd habs hstat hdir hopen
    refine ⟨?_, ?_, ?_, ?_⟩
    · cases hf : env.flockRes 0 with
      | none =>
        simp [Locker.TryLock, habs, hstat, hdir, hopen, hf,
          List.countP_cons, Event.isFlock]
      | some e =>
        by_cases hc : e = EAGAIN ∨ e = EWOULDBLOCK
        · simp [Locker.TryLock, habs, hstat, hdir, hopen, hf, hc,
            List.countP_cons, Event.isFlock]
        · simp [Locker.TryLock, habs, hstat, hdir, hopen, hf, hc,
            List.countP_cons, Event.isFlock]
    · intro hf
      constructor
      · simp [Locker.TryLock, habs, hstat, hdir, hopen, hf]
      · intro r h
        rw [Lock_reaches_loop env l abs fi fd habs hstat hdir hopen 1] at h
        simp only [lockLoop, hf] at h
        injection h with h
        subst h
        rfl
    · intro e hf hc
      constructor
      · simp [Locker.TryLock, habs, hstat, hdir, hopen, hf, hc]
      · simp [Locker.TryLock, habs, hstat, hdir, hopen, hf, hc]
    · intro e hf hc
      refine ⟨?_, ?_, ?_⟩
      · simp [Locker.TryLock, habs, hstat, hdir, hopen, hf, hc]
      · simp [Locker.TryLock, habs, hstat, hdir, hopen, hf, hc]
      · intro h
        cases h

/-- Witness for tryLock_spec: with the single request contended,
TryLock returns the ErrLockLocked sentinel and leaves the locker
unchanged; with the request granted, it commits fd 3. -/
theorem tryLock_spec_wit :
    ((New "/tmp/a.lock" 0).TryLock envBusy).err = some ErrLockLocked ∧
    ((New "/tmp/a.lock" 0).TryLock envBusy).locker = New "/tmp/a.lock" 0 ∧
    ((New "/tmp/a.lock" 0).TryLock env1).locker.file = some 3 := by
  refine ⟨((tryLock_spec envBusy (New "/tmp/a.lock" 0)).2.2.2.2.2 "/tmp/a.lock"
      { isDir := false } 3 rfl rfl rfl rfl).2.2.1 EWOULDBLOCK rfl (Or.inl rfl) |>.1,
    ((tryLock_spec envBusy (New "/tmp/a.lock" 0)).2.2.2.2.2 "/tmp/a.lock"
      { isDir := false } 3 rfl rfl rfl rfl).2.2.1 EWOULDBLOCK rfl (Or.inl rfl) |>.2, ?_⟩
  rw [(((tryLock_spec env1 (New "/tmp/a.lock" 0)).2.2.2.2.2 "/tmp/a.lock"
      { isDir := false } 3 rfl rfl rfl rfl).2.1 rfl).1]

/-- Helper: any returning Lock call either succeeded and committed the
absolute path and fd, or failed and left the locker untouched. -/
theorem Lock_cases (env : Env) (l : Locker) :
    ∀ fuel r, l.Lock env fuel = some r →
      (r.err = none ∧ ∃ abs fd, env.absRes = .ok abs ∧ env.openRes = .ok fd ∧
          r.locker = { l with path := abs, file := some fd }) ∨
      (r.err ≠ none ∧ r.locker = l) := by
  intro fuel r h
  cases habs : env.absRes with
  | error e =>
    simp only [Locker.Lock, habs] at h
    injection h with h
    subst h
    exact Or.inr ⟨by simp, rfl⟩
  | ok abs =>
    cases hstat : env.statRes with
    | error e =>
      simp only [Locker.Lock, habs, hstat] at h
      split at h <;> (injection h with h; subst h; exact Or.inr ⟨by simp, rfl⟩)
    | ok fi =>
      cases hopen : env.openRes with
      | error e2 =>
        simp only [Locker.Lock, habs, hstat, hopen] at h
        split at h <;> (injection h with h; subst h; exact Or.inr ⟨by simp, rfl⟩)
      | ok fd =>
        simp only [Locker.Lock, habs, hstat, hopen] at h
        split at h
        · injection h with h
          subst h
          exact Or.inr ⟨by simp, rfl⟩
        · rcases lockLoop_cases env l abs fd fuel 0 _ r h with ⟨h1, h2⟩ | ⟨e, he, h1, h2⟩
          · exact Or.inl ⟨h1, abs, fd, rfl, rfl, h2⟩
          · exact Or.inr ⟨by simp [h1], h2⟩

/-- Helper: any TryLock call either succeeded and committed the absolute
path and fd, or failed and left the locker untouched. -/
theorem TryLock_cases (env : Env) (l : Locker) :
    ((l.TryLock env).err = none ∧ ∃ abs fd, env.absRes = .ok abs ∧ env.openRes = .ok fd ∧
        (l.TryLock env).locker = { l with path := abs, file := some fd }) ∨
    ((l.TryLock env).err ≠ none ∧ (l.TryLock env).locker = l) := by
  cases habs : env.absRes with
  | error e =>
    exact Or.inr ⟨by simp [Locker.TryLock, habs], by simp [Locker.TryLock, habs]⟩
  | ok abs =>
    cases hstat : env.statRes with
    | error e =>
      by_cases hne : e.isNotExist = true <;>
        exact Or.inr ⟨by simp [Locker.TryLock, habs, hstat, hne],
                      by simp [Locker.TryLock, habs, hstat, hne]⟩
    | ok fi =>
      by_cases hdir : fi.isDir = true
      · exact Or.inr ⟨by simp [Locker.TryLock, habs, hstat, hdir],
                      by simp [Locker.TryLock, habs, hstat, hdir]⟩
      · cases hopen : env.openRes with
        | error e2 =>
          exact Or.inr ⟨by simp [Locker.TryLock, habs, hstat, hdir, hopen],
                        by simp [Locker.TryLock, habs, hstat, hdir, hopen]⟩
        | ok fd =>
          cases hf : env.flockRes 0 with
          | none =>
            refine Or.inl ⟨by simp [Locker.TryLock, habs, hstat, hdir, hopen, hf],
              abs, fd, rfl, rfl,
              by simp [Locker.TryLock, habs, hstat, hdir, hopen, hf]⟩
          | some e2 =>
            by_cases hc : e2 = EAGAIN ∨ e2 = EWOULDBLOCK <;>
              exact Or.inr ⟨by simp [Locker.TryLock, habs, hstat, hdir, hopen, hf, hc],
                            by simp [Locker.TryLock, habs, hstat, hdir, hopen, hf, hc]⟩

/-- C3: a failed acquisition attempt (Lock or TryLock) leaves the entire
Locker — in particular its path field — unchanged at its previously
configured value; the path is overwritten to the canonical absolute form
only when the attempt returns success. -/
theorem path_committed_only_on_success (env : Env) (l : Locker) :
    (∀ fuel r, l.Lock env fuel = some r → r.err ≠ none → r.locker = l) ∧
    ((l.TryLock env).err ≠ none → (l.TryLock env).locker = l) ∧
    (∀ fuel r abs, env.absRes = .ok abs → l.Lock env fuel = some r → r.err = none →
        r.locker.path = abs) ∧
    (∀ abs, env.absRes = .ok abs → (l.TryLock env).err = none →
        (l.TryLock env).locker.path = abs) := by
  refine ⟨?_, ?_, ?_, ?_⟩
  · intro fuel r h herr
    rcases Lock_cases env l fuel r h with ⟨h1, _⟩ | ⟨_, h2⟩
    · exact absurd h1 herr
    · exact h2
  · intro herr
    rcases TryLock_cases env l with ⟨h1, _⟩ | ⟨_, h2⟩
    · exact absurd h1 herr
    · exact h2
  · intro fuel r abs habs h herr
    rcases Lock_cases env l fuel r h with ⟨_, abs2, fd, habs2, _, h2⟩ | ⟨h1, _⟩
    · rw [habs] at habs2
      injection habs2 with habs2
      subst habs2
      rw [h2]
    · exact absurd herr h1
  · intro abs habs herr
    rcases TryLock_cases env l with ⟨_, abs2, fd, habs2, _, h2⟩ | ⟨h1, _⟩
    · rw [habs] at habs2
      injection habs2 with habs2
      subst habs2
      rw [h2]
    · exact absurd herr h1

/-- Witness for path_committed_only_on_success: a TryLock whose lock
request fails with EACCES leaves the configured relative path in place,
and a successful TryLock commits the absolute path. -/
theorem path_committed_only_on_success_wit :
    ((New "rel.lock" 7).TryLock envEacces).locker = New "rel.lock" 7 ∧
    ((New "rel.lock" 7).TryLock env1).locker.path = "/tmp/a.lock" :=
  ⟨(path_committed_only_on_success envEacces (New "rel.lock" 7)).2.1 (by decide),
   (path_committed_only_on_success env1 (New "rel.lock" 7)).2.2.2 "/tmp/a.lock" rfl
     (by decide)⟩

/-- C4: for both Lock and TryLock, an unresolvable path yields a wrapped
resolution error, a missing path yields the not-found error (distinguished
from other stat failures), and a directory yields the directory error; in
every one of these precondition-failure cases no open call is ever issued
and the Locker is unchanged. -/
theorem precheck_failures (env : Env) (l : Locker) :
    (∀ e fuel r, env.absRes = .error e → l.Lock env fuel = some r →
        r.err = some (.wrapped "absolute represenation of path failed" e) ∧
        r.locker = l ∧ ∀ ev ∈ r.trace, ev.isOpen = false) ∧
    (∀ e, env.absRes = .error e →
        (l.TryLock env).err = some (.wrapped "abs failed" e) ∧
        (l.TryLock env).locker = l ∧
        ∀ ev ∈ (l.TryLock env).trace, ev.isOpen = false) ∧
    (∀ abs e fuel r, env.absRes = .ok abs → env.statRes = .error e →
        l.Lock env fuel = some r →
        r.err = some (.wrapped (if e.isNotExist then "path doesn't exist" else "stat failed") e) ∧
        r.locker = l ∧ ∀ ev ∈ r.trace, ev.isOpen = false) ∧
    (∀ abs e, env.absRes = .ok abs → env.statRes = .error e →
        (l.TryLock env).err =
          some (.wrapped (if e.isNotExist then "path doesn't exist" else "stat failed") e) ∧
        (l.TryLock env).locker = l ∧
        ∀ ev ∈ (l.TryLock env).trace, ev.isOpen = false) ∧
    (∀ abs fi fuel r, env.absRes = .ok abs → env.statRes = .ok fi → fi.isDir = true →
        l.Lock env fuel = some r →
        r.err = some (.goError "directory not allowed") ∧
        r.locker = l ∧ ∀ ev ∈ r.trace, ev.isOpen = false) ∧
    (∀ abs fi, env.absRes = .ok abs → env.statRes = .ok fi → fi.isDir = true →
        (l.TryLock env).err = some (.goError "directories are not allowed") ∧
        (l.TryLock env).locker = l ∧
        ∀ ev ∈ (l.TryLock env).trace, ev.isOpen = false) := by
  refine ⟨?_, ?_, ?_, ?_, ?_, ?_⟩
  · intro e fuel r habs h
    simp only [Locker.Lock, habs] at h
    injection h with h
    subst h
    exact ⟨rfl, rfl, by simp⟩
  · intro e habs
    refine ⟨by simp [Locker.TryLock, habs], by simp [Locker.TryLock, habs],
            by simp [Locker.TryLock, habs]⟩
  · intro abs e fuel r habs hstat h
    simp only [Locker.Lock, habs, hstat] at h
    by_cases hne : e.isNotExist = true
    · rw [if_pos hne] at h
      injection h with h
      subst h
      exact ⟨by simp [hne], rfl, by simp [Event.isOpen]⟩
    · rw [if_neg hne] at h
      injection h with h
      subst h
      refine ⟨?_, rfl, by simp [Event.isOpen]⟩
      simp only [Bool.not_eq_true] at hne
      simp [hne]
  · intro abs e habs hstat
    by_cases hne : e.isNotExist = true
    · refine ⟨?_, by simp [Locker.TryLock, habs, hstat, hne],
              by simp [Locker.TryLock, habs, hstat, hne, Event.isOpen]⟩
      simp [Locker.TryLock, habs, hstat, hne]
    · refine ⟨?_, by simp [Locker.TryLock, habs, hstat, hne],
              by simp [Locker.TryLock, habs, hstat, hne, Event.isOpen]⟩
      simp only [Bool.not_eq_true] at hne
      simp [Locker.TryLock, habs, hstat, hne]
  · intro abs fi fuel r habs hstat hdir h
    simp only [Locker.Lock, habs, hstat] at h
    rw [if_pos hdir] at h
    injection h with h
    subst h
    exact ⟨rfl, rfl, by simp [Event.isOpen]⟩
  · intro abs fi habs hstat hdir
    exact ⟨by simp [Locker.TryLock, habs, hstat, hdir],
           by simp [Locker.TryLock, habs, hstat, hdir],
           by simp [Locker.TryLock, habs, hstat, hdir, Event.isOpen]⟩

/-- Witness for precheck_failures: a missing path gives the not-found
error and a directory gives the directory error, each with the locker
unchanged. -/
theorem precheck_failures_wit :
    ((New "m.lock" 0).TryLock envMissing).err =
      some (.wrapped "path doesn't exist" (.errno ENOENT)) ∧
    ((New "d.lock" 0).TryLock envDir).err = some (.goError "directories are not allowed") ∧
    ((New "d.lock" 0).TryLock envDir).locker = New "d.lock" 0 := by
  refine ⟨?_, ?_, ?_⟩
  · have h := ((precheck_failures envMissing (New "m.lock" 0)).2.2.2.1
      "/tmp/missing.lock" (.errno ENOENT) rfl rfl).1
    simpa using h
  · exact ((precheck_failures envDir (New "d.lock" 0)).2.2.2.2.2 "/tmp"
      { isDir := true } rfl rfl rfl).1
  · exact ((precheck_failures envDir (New "d.lock" 0)).2.2.2.2.2 "/tmp"
      { isDir := true } rfl rfl rfl).2.1

/-- C9: when TryLock opens the file and the single lock request then
fails, the opened file is neither closed (no close event in the trace) nor
stored in the Locker, and an error is returned; Lock on the same
environment, failing non-retryably, does close the opened fd. -/
theorem tryLock_no_close_on_failure (env : Env) (l : Locker) (abs : String) (fi : FileInfo)
    (fd : Nat) (e : Nat)
    (habs : env.absRes = .ok abs) (hstat : env.statRes = .ok fi) (hdir : fi.isDir = false)
    (hopen : env.openRes = .ok fd) (hf : env.flockRes 0 = some e) :
    (l.TryLock env).locker = l ∧
    (l.TryLock env).err ≠ none ∧
    (∀ ev ∈ (l.TryLock env).trace, ev.isClose = false) ∧
    (e ≠ EWOULDBLOCK → ∃ r, l.Lock env 1 = some r ∧ Event.closeCall fd ∈ r.trace) := by
  refine ⟨?_, ?_, ?_, ?_⟩
  · by_cases hc : e = EAGAIN ∨ e = EWOULDBLOCK <;>
      simp [Locker.TryLock, habs, hstat, hdir, hopen, hf, hc]
  · by_cases hc : e = EAGAIN ∨ e = EWOULDBLOCK <;>
      simp [Locker.TryLock, habs, hstat, hdir, hopen, hf, hc]
  · by_cases hc : e = EAGAIN ∨ e = EWOULDBLOCK <;>
      simp [Locker.TryLock, habs, hstat, hdir, hopen, hf, hc, Event.isClose]
  · intro he
    rw [Lock_reaches_loop env l abs fi fd habs hstat hdir hopen 1]
    simp only [lockLoop, hf]
    rw [if_neg he]
    exact ⟨_, rfl, by simp⟩

/-- Witness for tryLock_no_close_on_failure at the EACCES environment. -/
theorem tryLock_no_close_on_failure_wit :
    ((New "/tmp/a.lock" 0).TryLock envEacces).locker = New "/tmp/a.lock" 0 ∧
    ((New "/tmp/a.lock" 0).TryLock envEacces).err ≠ none := by
  have h := tryLock_no_close_on_failure envEacces (New "/tmp/a.lock" 0) "/tmp/a.lock"
    { isDir := false } 3 13 rfl rfl rfl rfl rfl
  exact ⟨h.1, h.2.1⟩

/-- C5 counterexample: Lock succeeds on env1 and commits fd 3, then Unlock
succeeds — yet the file field is still present (some 3), refuting the
claim that Unlock returns the handle field to the absent state. -/
theorem unlock_keeps_handle_cex :
    Locker.Lock (New "/tmp/a.lock" 0) env1 1 =
      some { locker := lockedLocker
             err := none
             trace := [.statCall "/tmp/a.lock", .openCall "/tmp/a.lock" O_RDWR 0o660,
                       .flockCall 3 F_OFD_SETLK wrlckWholeFile] } ∧
    (lockedLocker.Unlock env1).err = none ∧
    (lockedLocker.Unlock env1).locker.file = some 3 := by
  refine ⟨by decide, rfl, rfl⟩

/-- C5 amended: the file field is absent at construction, becomes present
exactly on a successful Lock or TryLock and is untouched by a failed one;
Unlock closes the descriptor (releasing the OS lock) but never modifies
the Locker, so the field remains present after release. -/
theorem handle_presence (p : String) (d : Int) (env : Env) (l : Locker) :
    (New p d).file = none ∧
    (∀ fuel r, l.Lock env fuel = some r → r.err = none → ∃ fd, r.locker.file = some fd) ∧
    (∀ fuel r, l.Lock env fuel = some r → r.err ≠ none → r.locker.file = l.file) ∧
    ((l.TryLock env).err = none → ∃ fd, (l.TryLock env).locker.file = some fd) ∧
    ((l.TryLock env).err ≠ none → (l.TryLock env).locker.file = l.file) ∧
    (l.Unlock env).locker = l := by
  refine ⟨rfl, ?_, ?_, ?_, ?_, Unlock_locker_eq l env⟩
  · intro fuel r h herr
    rcases Lock_cases env l fuel r h with ⟨_, abs, fd, _, _, h2⟩ | ⟨h1, _⟩
    · exact ⟨fd, by rw [h2]⟩
    · exact absurd herr h1
  · intro fuel r h herr
    rcases Lock_cases env l fuel r h with ⟨h1, _⟩ | ⟨_, h2⟩
    · exact absurd h1 herr
    · rw [h2]
  · intro herr
    rcases TryLock_cases env l with ⟨_, abs, fd, _, _, h2⟩ | ⟨h1, _⟩
    · exact ⟨fd, by rw [h2]⟩
    · exact absurd herr h1
  · intro herr
    rcases TryLock_cases env l with ⟨h1, _⟩ | ⟨_, h2⟩
    · exact absurd h1 herr
    · rw [h2]

/-- Witness for handle_presence: construction has no handle, a failed
TryLock keeps it absent, Unlock leaves the held handle in place. -/
theorem handle_presence_wit :
    (New "p" 0).file = none ∧
    ((New "x" 0).TryLock envEacces).locker.file = (New "x" 0).file ∧
    (lockedLocker.Unlock env1).locker = lockedLocker :=
  ⟨(handle_presence "p" 0 env1 (New "p" 0)).1,
   (handle_presence "x" 0 envEacces (New "x" 0)).2.2.2.2.1 (by decide),
   (handle_presence "p" 0 env1 lockedLocker).2.2.2.2.2⟩

end LockPkg
